import Mathlib

/-!
# Gossip host start-up: `internal/host/host.go`

A shallow embedding of `Start` and `mdnsNotifee.HandlePeerFound`.

The two functions are orchestration code: what they compute is the order in which
they call their collaborators (option parsers, the libp2p host builder, pubsub,
peer bootstrapping, mDNS discovery, the DHT, the logger) and the error they return.
The embedding therefore makes the calls explicit:

* every call with an effect that the task running `Start` (or the notifee) makes is
  recorded, in program order, as an `Event` of a trace;
* what a collaborator answers is read from an `Env`, a record of functions, so that a
  theorem quantified over `Env` speaks about every behaviour of the collaborators;
* `libp2p.New` receives the routing factory `newDHT` as a callback; its behaviour is a
  `Build` tree whose nodes are the invocations of the factory it chooses to make;
* the `select` at the end of `Start` blocks until one of two channels is ready; which
  one (or none, ever) is read from the `Env`, and a run that waits for ever has the
  outcome `blocked`.

Goroutines launched by `Start` are recorded by their launch only; what they do
afterwards is not part of the trace of `Start`.
-/

namespace GossipHost

/-! ## Data model -/

/-- Go `error` values (non-nil). -/
structure Err where
  code : Nat
deriving DecidableEq, Repr

/-- A `context.Context`. -/
structure Ctx where
  id : Nat
deriving DecidableEq, Repr

/-- A `host.Host` handle. -/
structure Host where
  id : Nat
deriving DecidableEq, Repr

/-- A `*kaddht.IpfsDHT` that is not nil. -/
structure DHT where
  id : Nat
deriving DecidableEq, Repr

/-- A `*pubsub.PubSub`. -/
structure PubSub where
  id : Nat
deriving DecidableEq, Repr

/-- A `*pubsub.Subscription`. -/
structure Subscription where
  id : Nat
deriving DecidableEq, Repr

/-- The discovery service returned by `discovery.NewMdnsService`. -/
structure MdnsService where
  id : Nat
deriving DecidableEq, Repr

/-- A `peer.AddrInfo`: a peer identity and its addresses. -/
structure AddrInfo where
  ID : String
  Addrs : List String
deriving DecidableEq, Repr

/-- The notifee registered with the discovery service (`type mdnsNotifee struct`). -/
structure mdnsNotifee where
  h : Host
  ctx : Ctx
deriving DecidableEq, Repr

/-- The `Host` section of `config.Config`, with the fields `Start` reads. -/
structure HostConf where
  Transports : List String
  Muxers : List String
  Security : List String
  Listens : List String
  Peers : List String
  DisableRelay : Bool
deriving DecidableEq, Repr

/-- The value behind a non-nil `*config.Config`. -/
structure Config where
  Host : HostConf
deriving DecidableEq, Repr

/-- An `lconfig.Option`, an element of the capability list handed to `libp2p.New`. -/
inductive LOpt where
  /-- an option value returned by one of the three parsers -/
  | parsed (id : Nat)
  /-- the value of `libp2p.ListenAddrStrings(addrs...)` -/
  | ListenAddrStrings (addrs : List String)
  /-- the value of `libp2p.Routing(newDHT)` -/
  | Routing
  /-- the value of `libp2p.DisableRelay()` -/
  | DisableRelay
deriving DecidableEq, Repr

/-- The two channels of the final `select`. -/
inductive Trigger where
  /-- the channel `stop`, fed by `signal.Notify(stop, syscall.SIGINT)` -/
  | stop
  /-- the channel `donec`, signalled by the chat input loop when it ends -/
  | donec
deriving DecidableEq, Repr

/-- The calls with an effect that the embedded functions make, with their arguments. -/
inductive Event where
  | logError (msg : String)
  | logErrorf (format : String) (err : Err)
  | logInfo (msg : String)
  | logInfof (format : String) (arg : String)
  | withCancel (ctx : Ctx)
  | cancel (ctx : Ctx)
  | parseTransportOptions (ids : List String)
  | parseMuxerOptions (ids : List String)
  | parseSecurityOptions (ids : List String)
  | libp2pNew (ctx : Ctx) (opts : List LOpt)
  | kaddhtNew (ctx : Ctx) (h : Host)
  | newGossipSub (ctx : Ctx) (h : Host)
  | subscribe (ps : PubSub) (topic : String)
  | goPubsubHandler (ctx : Ctx) (sub : Subscription)
  | bootstrapPeers (ctx : Ctx) (h : Host) (peers : List String)
  | newMdnsService (ctx : Ctx) (h : Host) (interval : Nat) (tag : String)
  | registerNotifee (mdns : MdnsService) (n : mdnsNotifee)
  | dhtBootstrap (dht : Option DHT) (ctx : Ctx)
  | goChatInputLoop (ctx : Ctx) (h : Host) (ps : PubSub)
  | signalNotify (sig : Nat)
  | selectWait
  | hostClose (h : Host)
  | hostConnect (ctx : Ctx) (h : Host) (pi : AddrInfo)
deriving DecidableEq, Repr

/-- How a call ends: it returns a value, or it never returns. -/
inductive Outcome (α : Type) where
  | returned (v : α)
  | blocked
deriving DecidableEq, Repr

/-- The events of a call, in program order, and how the call ends. -/
structure Run (α : Type) where
  trace : List Event
  outcome : Outcome α
deriving DecidableEq, Repr

/-- What `libp2p.New` does with the routing factory it is given: it either returns
(`ret`), or calls the factory on a host and continues with what the factory
returned (`callRouting`). -/
inductive Build where
  | ret (r : Except Err Host)
  | callRouting (h : Host) (k : Except Err DHT → Build)

/-- The collaborators of `Start` and of the notifee, and the package-level values of
the repository that are declared outside `host.go`. A Go call returning `(T, error)`
answers `Except Err T`; one returning `error` answers `Option Err` (`none` is `nil`).
The first argument of `kaddhtNew` and of `hostConnect` is the number of calls made
before, so that repeated calls with equal arguments may answer differently. -/
structure Env where
  /-- the value `config.ErrNilConfig` -/
  ErrNilConfig : Err
  /-- the package constant `pubsubTopic` -/
  pubsubTopic : String
  /-- the context made by `context.WithCancel(context.Background())` -/
  ctx : Ctx
  parseTransportOptions : List String → Except Err LOpt
  parseMuxerOptions : List String → Except Err LOpt
  parseSecurityOptions : List String → Except Err LOpt
  libp2pNew : Ctx → List LOpt → Build
  kaddhtNew : Nat → Ctx → Host → Except Err DHT
  newGossipSub : Ctx → Host → Except Err PubSub
  subscribe : PubSub → String → Except Err Subscription
  hostAddrs : Host → List String
  bootstrapPeers : Ctx → Host → List String → Option Err
  newMdnsService : Ctx → Host → Nat → String → Except Err MdnsService
  dhtBootstrap : Option DHT → Ctx → Option Err
  hostConnect : Nat → Ctx → Host → AddrInfo → Option Err
  /-- the channel of the final `select` that becomes ready first, if any ever does -/
  shutdown : Option Trigger

/-- The duration `time.Second`, in nanoseconds. -/
def Second : Nat := 1000000000

/-- The signal number `syscall.SIGINT`. -/
def SIGINT : Nat := 2

/-! ## Trace combinators -/

/-- Perform one call, then continue. -/
def step {α : Type} (e : Event) (r : Run α) : Run α :=
  ⟨e :: r.trace, r.outcome⟩

/-- Perform a list of calls in order, then continue. -/
def steps {α : Type} (es : List Event) (r : Run α) : Run α :=
  ⟨es ++ r.trace, r.outcome⟩

/-- The statement `return v`. -/
def done {α : Type} (v : α) : Run α :=
  ⟨[], Outcome.returned v⟩

/-- Block for ever. -/
def block {α : Type} : Run α :=
  ⟨[], Outcome.blocked⟩

/-- The statement `defer f()` in front of a body: `f` runs when the body returns. -/
def deferred {α : Type} (e : Event) (r : Run α) : Run α :=
  match r.outcome with
  | Outcome.returned v => ⟨r.trace ++ [e], Outcome.returned v⟩
  | Outcome.blocked => r

/-! ## `mdnsNotifee.HandlePeerFound` -/

/-- The method `func (m *mdnsNotifee) HandlePeerFound(pi peer.AddrInfo)`:
`m.h.Connect(m.ctx, pi)`, whose result is dropped. `n` is the number of `Connect`
calls made before. -/
def mdnsNotifee.HandlePeerFound (env : Env) (n : Nat) (m : mdnsNotifee) (pi : AddrInfo) :
    Run Unit :=
  let _ := env.hostConnect n m.ctx m.h pi
  step (Event.hostConnect m.ctx m.h pi) (done ())

/-- The discovery service delivering a sequence of announcements to the notifee, one
call of `HandlePeerFound` per announcement; `n` counts the `Connect` calls made so far.
The run is that of the last call, preceded by the events of the earlier ones. -/
def announce (env : Env) (m : mdnsNotifee) : Nat → List AddrInfo → Run Unit
  | _, [] => done ()
  | n, pi :: rest =>
    match (mdnsNotifee.HandlePeerFound env n m pi).outcome with
    | Outcome.returned _ =>
      steps (mdnsNotifee.HandlePeerFound env n m pi).trace (announce env m (n + 1) rest)
    | Outcome.blocked => mdnsNotifee.HandlePeerFound env n m pi

/-! ## `Start` -/

/-- The state of the closure variable `dht` and of the build while `libp2p.New` runs. -/
structure BuildRun where
  /-- the events of the factory invocations, in order -/
  events : List Event
  /-- the closure variable `dht` (`none` is the nil pointer) -/
  dht : Option DHT
  /-- the factory invocations: the host given and the routing table or error returned -/
  calls : List (Host × Except Err DHT)
  /-- what `libp2p.New` returns -/
  result : Except Err Host

/-- The closure `newDHT := func(h host.Host) (routing.PeerRouting, error)`: it calls
`kaddht.New(ctx, h)`, assigns the routing table to the captured variable `dht`, logs an
error if there is one, and returns both. The result is the events, the new value of
`dht` and the returned pair. -/
def newDHT (env : Env) (ctx : Ctx) (n : Nat) (h : Host) :
    List Event × Option DHT × Except Err DHT :=
  match env.kaddhtNew n ctx h with
  | Except.error err =>
    ([Event.kaddhtNew ctx h, Event.logErrorf "err creating new kaddht\n%v" err], none,
      Except.error err)
  | Except.ok d => ([Event.kaddhtNew ctx h], some d, Except.ok d)

/-- Run `libp2p.New` against the factory `newDHT`; `n` is the number of factory
invocations made before and `dht` the current value of the closure variable. -/
def runBuild (env : Env) (ctx : Ctx) : Build → Nat → Option DHT → BuildRun
  | Build.ret r, _, dht => ⟨[], dht, [], r⟩
  | Build.callRouting h k, n, _ =>
    let f := newDHT env ctx n h
    let rest := runBuild env ctx (k f.2.2) (n + 1) f.2.1
    ⟨f.1 ++ rest.events, rest.dht, (h, f.2.2) :: rest.calls, rest.result⟩

/-- The capability list `lOpts` at the call of `libp2p.New`, given the three parsed
options: the appends of `Start`, in order. -/
def lOpts (conf : Config) (transports muxers security : LOpt) : List LOpt :=
  let l : List LOpt := []
  let l := l ++ [transports]
  let l := l ++ [muxers]
  let l := l ++ [security]
  let l := if conf.Host.Listens.length > 0 then
      l ++ [LOpt.ListenAddrStrings conf.Host.Listens] else l
  let l := l ++ [LOpt.Routing]
  if conf.Host.DisableRelay then l ++ [LOpt.DisableRelay] else l

/-- The final `select` of `Start` and the `return nil` after it. -/
def shutdownWait (env : Env) (host : Host) : Run (Option Err) :=
  step Event.selectWait <|
  match env.shutdown with
  | none => block
  | some Trigger.stop =>
    step (Event.logInfo "Received stop signal from os. Shutting down...") <|
    step (Event.hostClose host) <|
    done none
  | some Trigger.donec =>
    step (Event.logInfo "shutting down...") <|
    step (Event.hostClose host) <|
    done none

/-- The function `func Start(conf *config.Config) error`; `none` is the nil pointer,
and the returned `none` is the nil error. -/
def Start (env : Env) : Option Config → Run (Option Err)
  | none =>
    step (Event.logError "nil config") <|
    done (some env.ErrNilConfig)
  | some conf =>
    -- 1. create a context
    let ctx := env.ctx
    step (Event.withCancel ctx) <|
    deferred (Event.cancel ctx) <|
    -- 2. create transports
    step (Event.parseTransportOptions conf.Host.Transports) <|
    match env.parseTransportOptions conf.Host.Transports with
    | Except.error err =>
      step (Event.logErrorf "err parsing transports\n%v" err) <|
      done (some err)
    | Except.ok transports =>
    -- 3. create muxers
    step (Event.parseMuxerOptions conf.Host.Muxers) <|
    match env.parseMuxerOptions conf.Host.Muxers with
    | Except.error err =>
      step (Event.logErrorf "err parsing muxers\n%v" err) <|
      done (some err)
    | Except.ok muxers =>
    -- 4. create security
    step (Event.parseSecurityOptions conf.Host.Security) <|
    match env.parseSecurityOptions conf.Host.Security with
    | Except.error err =>
      step (Event.logErrorf "err parsing security\n%v" err) <|
      done (some err)
    | Except.ok security =>
    -- 5. add listen addresses, 6. create router
    let opts := lOpts conf transports muxers security
    -- 7. build the libp2p host
    let b := runBuild env ctx (env.libp2pNew ctx opts) 0 none
    step (Event.libp2pNew ctx opts) <|
    steps b.events <|
    match b.result with
    | Except.error err =>
      step (Event.logErrorf "err creating new libp2p host\n%v" err) <|
      done (some err)
    | Except.ok host =>
    -- 8. build the gossip pub/sub
    step (Event.newGossipSub ctx host) <|
    match env.newGossipSub ctx host with
    | Except.error err =>
      step (Event.logErrorf "err creating new gossip sub\n%v" err) <|
      done (some err)
    | Except.ok ps =>
    step (Event.subscribe ps env.pubsubTopic) <|
    match env.subscribe ps env.pubsubTopic with
    | Except.error err =>
      step (Event.logErrorf "err subscribing\n%v" err) <|
      done (some err)
    | Except.ok sub =>
    step (Event.goPubsubHandler ctx sub) <|
    steps ((env.hostAddrs host).map (Event.logInfof "Listening on %v")) <|
    -- 9. Connect to peers
    step (Event.bootstrapPeers ctx host conf.Host.Peers) <|
    match env.bootstrapPeers ctx host conf.Host.Peers with
    | some err =>
      step (Event.logErrorf "err bootstrapping peers\n%v" err) <|
      done (some err)
    | none =>
    -- 10. create discovery service
    step (Event.newMdnsService ctx host (Second * 10) "") <|
    match env.newMdnsService ctx host (Second * 10) "" with
    | Except.error err =>
      step (Event.logErrorf "err discovering\n%v" err) <|
      done (some err)
    | Except.ok mdns =>
    step (Event.registerNotifee mdns ⟨host, ctx⟩) <|
    step (Event.dhtBootstrap b.dht ctx) <|
    match env.dhtBootstrap b.dht ctx with
    | some err =>
      step (Event.logErrorf "err bootstrapping\n%v" err) <|
      done (some err)
    | none =>
    step (Event.goChatInputLoop ctx host ps) <|
    -- 11. capture the ctrl+c signal
    step (Event.signalNotify SIGINT) <|
    -- 12. start the server
    shutdownWait env host

/-! ## Event classes -/

/-- The calls of `dht.Bootstrap`. -/
def Event.isDhtBootstrap : Event → Bool
  | Event.dhtBootstrap _ _ => true
  | _ => false

/-- The calls of `Host.Close`. -/
def Event.isHostClose : Event → Bool
  | Event.hostClose _ => true
  | _ => false

/-- The calls of the cancel function of the lifetime context. -/
def Event.isCancel : Event → Bool
  | Event.cancel _ => true
  | _ => false

/-- The executions of the final `select`. -/
def Event.isSelectWait : Event → Bool
  | Event.selectWait => true
  | _ => false

/-- The calls of the logger. -/
def Event.isLog : Event → Bool
  | Event.logError _ => true
  | Event.logErrorf _ _ => true
  | Event.logInfo _ => true
  | Event.logInfof _ _ => true
  | _ => false

/-- The calls of `Host.Connect`. -/
def Event.isHostConnect : Event → Bool
  | Event.hostConnect _ _ _ => true
  | _ => false

/-! ## Concrete collaborators, used to instantiate the theorems -/

/-- A configuration with one identifier of each kind, one listen address, two peers. -/
def demoConf : Config :=
  ⟨⟨["tcp"], ["yamux"], ["secio"], ["/ip4/0.0.0.0/tcp/3000"], ["p1", "p2"], true⟩⟩

/-- A host builder that calls the routing factory once, on host 7, passes on the
error of the factory if there is one, and otherwise returns host 7, or the error 4
when `fail = 4`. -/
def demoBuild (fail : Nat) : Build :=
  Build.callRouting ⟨7⟩ fun r =>
    match r with
    | Except.error err => Build.ret (Except.error err)
    | Except.ok _ => if fail = 4 then Build.ret (Except.error ⟨4⟩) else Build.ret (Except.ok ⟨7⟩)

/-- Collaborators of which the one numbered `fail` returns the error `fail` (1 to 3: the
parsers, 4: `libp2p.New`, 5: `NewGossipSub`, 6: `Subscribe`, 7: `bootstrapPeers`,
8: `NewMdnsService`, 9: `dht.Bootstrap`, 10: `Host.Connect`) and all others succeed;
the final `select` is decided by `trig`. -/
def demoEnv (fail : Nat) (trig : Option Trigger) : Env where
  ErrNilConfig := ⟨100⟩
  pubsubTopic := "pubsub-test"
  ctx := ⟨1⟩
  parseTransportOptions := fun _ => if fail = 1 then Except.error ⟨1⟩ else Except.ok (LOpt.parsed 1)
  parseMuxerOptions := fun _ => if fail = 2 then Except.error ⟨2⟩ else Except.ok (LOpt.parsed 2)
  parseSecurityOptions := fun _ => if fail = 3 then Except.error ⟨3⟩ else Except.ok (LOpt.parsed 3)
  libp2pNew := fun _ _ => demoBuild fail
  kaddhtNew := fun _ _ _ => Except.ok ⟨9⟩
  newGossipSub := fun _ _ => if fail = 5 then Except.error ⟨5⟩ else Except.ok ⟨11⟩
  subscribe := fun _ _ => if fail = 6 then Except.error ⟨6⟩ else Except.ok ⟨12⟩
  hostAddrs := fun _ => ["/ip4/127.0.0.1/tcp/3000", "/ip4/10.0.0.5/tcp/3000"]
  bootstrapPeers := fun _ _ _ => if fail = 7 then some ⟨7⟩ else none
  newMdnsService := fun _ _ _ _ => if fail = 8 then Except.error ⟨8⟩ else Except.ok ⟨13⟩
  dhtBootstrap := fun _ _ => if fail = 9 then some ⟨9⟩ else none
  hostConnect := fun _ _ _ _ => if fail = 10 then some ⟨10⟩ else none
  shutdown := trig

/-- A configuration with no listen address and relay enabled. -/
def demoConfBare : Config :=
  ⟨⟨["tcp", "ws"], ["mplex"], ["tls"], [], [], false⟩⟩

/-- A notifee on host 7 with context 1. -/
def demoNotifee : mdnsNotifee := ⟨⟨7⟩, ⟨1⟩⟩

/-- An announced peer. -/
def demoPeer : AddrInfo := ⟨"QmPeer", ["/ip4/192.168.1.20/tcp/3000"]⟩

/-! ## Theorems -/

/-! ### The trace combinators under `defer` -/

@[simp] theorem step_trace {α : Type} (e : Event) (r : Run α) :
    (step e r).trace = e :: r.trace := rfl

@[simp] theorem step_outcome {α : Type} (e : Event) (r : Run α) :
    (step e r).outcome = r.outcome := rfl

@[simp] theorem steps_trace {α : Type} (es : List Event) (r : Run α) :
    (steps es r).trace = es ++ r.trace := rfl

@[simp] theorem steps_outcome {α : Type} (es : List Event) (r : Run α) :
    (steps es r).outcome = r.outcome := rfl

@[simp] theorem done_trace {α : Type} (v : α) : (done v).trace = [] := rfl

@[simp] theorem done_outcome {α : Type} (v : α) : (done v).outcome = Outcome.returned v := rfl

@[simp] theorem block_trace {α : Type} : (block : Run α).trace = [] := rfl

@[simp] theorem block_outcome {α : Type} : (block : Run α).outcome = Outcome.blocked := rfl

@[simp] theorem deferred_step {α : Type} (c e : Event) (r : Run α) :
    deferred c (step e r) = step e (deferred c r) := by
  cases r with
  | mk tr out => cases out <;> rfl

@[simp] theorem deferred_steps {α : Type} (c : Event) (es : List Event) (r : Run α) :
    deferred c (steps es r) = steps es (deferred c r) := by
  cases r with
  | mk tr out => cases out <;> simp [deferred, steps]

@[simp] theorem deferred_done {α : Type} (c : Event) (v : α) :
    deferred c (done v) = ⟨[c], Outcome.returned v⟩ := rfl

@[simp] theorem deferred_block {α : Type} (c : Event) :
    deferred c (block : Run α) = block := rfl

/-- The factory invocations made while `libp2p.New` runs produce only `kaddht.New`
calls and the error log line of `newDHT`. -/
theorem runBuild_events (env : Env) (ctx : Ctx) (b : Build) (n : Nat) (dht : Option DHT) :
    ∀ e ∈ (runBuild env ctx b n dht).events,
      (∃ h, e = Event.kaddhtNew ctx h) ∨
      (∃ err, e = Event.logErrorf "err creating new kaddht\n%v" err) := by
  induction b generalizing n dht with
  | ret r => intro e he; simp [runBuild] at he
  | callRouting h k ih =>
    intro e he
    simp only [runBuild, List.mem_append] at he
    rcases he with he | he
    · unfold newDHT at he
      split at he <;> simp at he
      · rcases he with he | he
        · exact Or.inl ⟨h, he⟩
        · exact Or.inr ⟨_, he⟩
      · exact Or.inl ⟨h, he⟩
    · exact ih _ _ _ e he

/-- A class of events that contains neither `kaddht.New` calls nor error log lines has
no member among the events of the factory invocations. -/
theorem runBuild_events_countP (env : Env) (ctx : Ctx) (b : Build) (n : Nat)
    (dht : Option DHT) (p : Event → Bool)
    (h1 : ∀ c h, p (Event.kaddhtNew c h) = false)
    (h2 : ∀ f e, p (Event.logErrorf f e) = false) :
    (runBuild env ctx b n dht).events.countP p = 0 := by
  rw [List.countP_eq_zero]
  intro e he
  rcases runBuild_events env ctx b n dht e he with ⟨h, rfl⟩ | ⟨err, rfl⟩
  · simp [h1]
  · simp [h2]

@[simp] theorem runBuild_countP_isDhtBootstrap (env : Env) (ctx : Ctx) (b : Build) (n : Nat)
    (dht : Option DHT) : (runBuild env ctx b n dht).events.countP Event.isDhtBootstrap = 0 :=
  runBuild_events_countP env ctx b n dht _ (fun _ _ => rfl) (fun _ _ => rfl)

@[simp] theorem runBuild_countP_isHostClose (env : Env) (ctx : Ctx) (b : Build) (n : Nat)
    (dht : Option DHT) : (runBuild env ctx b n dht).events.countP Event.isHostClose = 0 :=
  runBuild_events_countP env ctx b n dht _ (fun _ _ => rfl) (fun _ _ => rfl)

@[simp] theorem runBuild_countP_isCancel (env : Env) (ctx : Ctx) (b : Build) (n : Nat)
    (dht : Option DHT) : (runBuild env ctx b n dht).events.countP Event.isCancel = 0 :=
  runBuild_events_countP env ctx b n dht _ (fun _ _ => rfl) (fun _ _ => rfl)

@[simp] theorem runBuild_countP_isSelectWait (env : Env) (ctx : Ctx) (b : Build) (n : Nat)
    (dht : Option DHT) : (runBuild env ctx b n dht).events.countP Event.isSelectWait = 0 :=
  runBuild_events_countP env ctx b n dht _ (fun _ _ => rfl) (fun _ _ => rfl)

@[simp] theorem dhtBootstrap_not_mem_runBuild (env : Env) (ctx : Ctx) (b : Build) (n : Nat)
    (dht : Option DHT) (d : Option DHT) (c : Ctx) :
    Event.dhtBootstrap d c ∉ (runBuild env ctx b n dht).events := by
  intro he
  rcases runBuild_events env ctx b n dht _ he with ⟨h, he⟩ | ⟨err, he⟩ <;> cases he

@[simp] theorem withCancel_not_mem_runBuild (env : Env) (ctx : Ctx) (b : Build) (n : Nat)
    (dht : Option DHT) (c : Ctx) :
    Event.withCancel c ∉ (runBuild env ctx b n dht).events := by
  intro he
  rcases runBuild_events env ctx b n dht _ he with ⟨h, he⟩ | ⟨err, he⟩ <;> cases he

@[simp] theorem selectWait_not_mem_runBuild (env : Env) (ctx : Ctx) (b : Build) (n : Nat)
    (dht : Option DHT) : Event.selectWait ∉ (runBuild env ctx b n dht).events := by
  intro he
  rcases runBuild_events env ctx b n dht _ he with ⟨h, he⟩ | ⟨err, he⟩ <;> cases he

theorem countP_comp_logInfof (p : Event → Bool) (f : String) (l : List String)
    (h : ∀ a, p (Event.logInfof f a) = false) :
    l.countP (p ∘ Event.logInfof f) = 0 := by
  rw [List.countP_eq_zero]
  intro a _
  simp [h]

@[simp] theorem countP_isDhtBootstrap_logInfof (f : String) (l : List String) :
    l.countP (Event.isDhtBootstrap ∘ Event.logInfof f) = 0 :=
  countP_comp_logInfof _ f l (fun _ => rfl)

@[simp] theorem countP_isHostClose_logInfof (f : String) (l : List String) :
    l.countP (Event.isHostClose ∘ Event.logInfof f) = 0 :=
  countP_comp_logInfof _ f l (fun _ => rfl)

@[simp] theorem countP_isCancel_logInfof (f : String) (l : List String) :
    l.countP (Event.isCancel ∘ Event.logInfof f) = 0 :=
  countP_comp_logInfof _ f l (fun _ => rfl)

@[simp] theorem countP_isSelectWait_logInfof (f : String) (l : List String) :
    l.countP (Event.isSelectWait ∘ Event.logInfof f) = 0 :=
  countP_comp_logInfof _ f l (fun _ => rfl)

/-- When `dht.Bootstrap` occurs in the trace of `Start`, every step before it has
succeeded, and the receiver is the closure variable `dht` as left by `libp2p.New`. -/
theorem dhtBootstrap_mem_Start (env : Env) (cf : Config) (d : Option DHT) (c : Ctx)
    (hmem : Event.dhtBootstrap d c ∈ (Start env (some cf)).trace) :
    ∃ t m s host ps sub mdns,
      env.parseTransportOptions cf.Host.Transports = Except.ok t ∧
      env.parseMuxerOptions cf.Host.Muxers = Except.ok m ∧
      env.parseSecurityOptions cf.Host.Security = Except.ok s ∧
      (runBuild env env.ctx (env.libp2pNew env.ctx (lOpts cf t m s)) 0 none).result =
        Except.ok host ∧
      env.newGossipSub env.ctx host = Except.ok ps ∧
      env.subscribe ps env.pubsubTopic = Except.ok sub ∧
      env.bootstrapPeers env.ctx host cf.Host.Peers = none ∧
      env.newMdnsService env.ctx host (Second * 10) "" = Except.ok mdns ∧
      d = (runBuild env env.ctx (env.libp2pNew env.ctx (lOpts cf t m s)) 0 none).dht ∧
      c = env.ctx := by
  revert hmem
  simp only [Start, shutdownWait]
  repeat' split
  all_goals intro hmem
  all_goals first
    | (simp [step, steps, done, block, deferred] at hmem; done)
    | (simp [step, steps, done, block, deferred] at hmem
       exact ⟨_, _, _, _, _, _, _, by assumption, by assumption, by assumption,
         by assumption, by assumption, by assumption, by assumption, by assumption,
         hmem.1, hmem.2⟩)

/-- The trace of `Start` up to the call of `dht.Bootstrap`, when every step before it
has succeeded. -/
theorem Start_trace_to_dhtBootstrap (env : Env) (cf : Config) (t m s : LOpt) (host : Host)
    (ps : PubSub) (sub : Subscription) (mdns : MdnsService)
    (ht : env.parseTransportOptions cf.Host.Transports = Except.ok t)
    (hm : env.parseMuxerOptions cf.Host.Muxers = Except.ok m)
    (hs : env.parseSecurityOptions cf.Host.Security = Except.ok s)
    (hhost : (runBuild env env.ctx (env.libp2pNew env.ctx (lOpts cf t m s)) 0 none).result =
      Except.ok host)
    (hps : env.newGossipSub env.ctx host = Except.ok ps)
    (hsub : env.subscribe ps env.pubsubTopic = Except.ok sub)
    (hpeers : env.bootstrapPeers env.ctx host cf.Host.Peers = none)
    (hmdns : env.newMdnsService env.ctx host (Second * 10) "" = Except.ok mdns) :
    ∃ post, (Start env (some cf)).trace =
      [Event.withCancel env.ctx,
        Event.parseTransportOptions cf.Host.Transports,
        Event.parseMuxerOptions cf.Host.Muxers,
        Event.parseSecurityOptions cf.Host.Security] ++
      [Event.libp2pNew env.ctx (lOpts cf t m s)] ++
      (runBuild env env.ctx (env.libp2pNew env.ctx (lOpts cf t m s)) 0 none).events ++
      ([Event.newGossipSub env.ctx host,
        Event.subscribe ps env.pubsubTopic,
        Event.goPubsubHandler env.ctx sub] ++
       (env.hostAddrs host).map (Event.logInfof "Listening on %v") ++
       [Event.bootstrapPeers env.ctx host cf.Host.Peers,
        Event.newMdnsService env.ctx host (Second * 10) "",
        Event.registerNotifee mdns ⟨host, env.ctx⟩]) ++
      [Event.dhtBootstrap
        (runBuild env env.ctx (env.libp2pNew env.ctx (lOpts cf t m s)) 0 none).dht env.ctx] ++
      post := by
  simp only [Start, ht, hm, hs, hhost, hps, hsub, hpeers, hmdns, deferred_step, deferred_steps,
    step_trace, steps_trace]
  refine ⟨(deferred (Event.cancel env.ctx)
    (match env.dhtBootstrap
        (runBuild env env.ctx (env.libp2pNew env.ctx (lOpts cf t m s)) 0 none).dht env.ctx with
      | some err => step (Event.logErrorf "err bootstrapping\n%v" err) (done (some err))
      | none =>
        step (Event.goChatInputLoop env.ctx host ps)
          (step (Event.signalNotify SIGINT) (shutdownWait env host)))).trace, ?_⟩
  simp

/-- A build that does not invoke the factory leaves the closure variable unchanged. -/
theorem runBuild_calls_nil (env : Env) (ctx : Ctx) (b : Build) (n : Nat) (dht : Option DHT)
    (h : (runBuild env ctx b n dht).calls = []) : (runBuild env ctx b n dht).dht = dht := by
  cases b with
  | ret r => rfl
  | callRouting h' k => simp [runBuild] at h

/-- A build that invokes the factory once, with success, leaves in the closure variable
the routing table that `kaddht.New` returned to that invocation. -/
theorem runBuild_calls_single (env : Env) (ctx : Ctx) (b : Build) (n : Nat) (dht : Option DHT)
    (h : Host) (d0 : DHT) (hc : (runBuild env ctx b n dht).calls = [(h, Except.ok d0)]) :
    (runBuild env ctx b n dht).dht = some d0 ∧ env.kaddhtNew n ctx h = Except.ok d0 := by
  cases b with
  | ret r => simp [runBuild] at hc
  | callRouting h' k =>
    simp only [runBuild, List.cons.injEq, Prod.mk.injEq] at hc
    obtain ⟨⟨rfl, hf⟩, hrest⟩ := hc
    have hd := runBuild_calls_nil env ctx _ _ _ hrest
    simp only [runBuild, hd]
    unfold newDHT at hf ⊢
    split at hf
    · cases hf
    · rename_i d heq
      simp only [Except.ok.injEq] at hf
      subst hf
      simp [heq]

/-- When the final `select` occurs in the trace of `Start`, every construction step has
succeeded. -/
theorem selectWait_mem_Start (env : Env) (cf : Config)
    (hmem : Event.selectWait ∈ (Start env (some cf)).trace) :
    ∃ t m s host ps sub mdns,
      env.parseTransportOptions cf.Host.Transports = Except.ok t ∧
      env.parseMuxerOptions cf.Host.Muxers = Except.ok m ∧
      env.parseSecurityOptions cf.Host.Security = Except.ok s ∧
      (runBuild env env.ctx (env.libp2pNew env.ctx (lOpts cf t m s)) 0 none).result =
        Except.ok host ∧
      env.newGossipSub env.ctx host = Except.ok ps ∧
      env.subscribe ps env.pubsubTopic = Except.ok sub ∧
      env.bootstrapPeers env.ctx host cf.Host.Peers = none ∧
      env.newMdnsService env.ctx host (Second * 10) "" = Except.ok mdns ∧
      env.dhtBootstrap
        (runBuild env env.ctx (env.libp2pNew env.ctx (lOpts cf t m s)) 0 none).dht env.ctx =
        none := by
  revert hmem
  simp only [Start]
  repeat' split
  all_goals intro hmem
  all_goals first
    | (simp [step, steps, done, block, deferred] at hmem; done)
    | exact ⟨_, _, _, _, _, _, _, by assumption, by assumption, by assumption,
        by assumption, by assumption, by assumption, by assumption, by assumption,
        by assumption⟩

/-- The run of `Start` when every construction step succeeds. -/
theorem Start_ok_run (env : Env) (conf : Config) (t m s : LOpt) (host : Host) (ps : PubSub)
    (sub : Subscription) (mdns : MdnsService)
    (ht : env.parseTransportOptions conf.Host.Transports = Except.ok t)
    (hm : env.parseMuxerOptions conf.Host.Muxers = Except.ok m)
    (hs : env.parseSecurityOptions conf.Host.Security = Except.ok s)
    (hhost : (runBuild env env.ctx (env.libp2pNew env.ctx (lOpts conf t m s)) 0 none).result =
      Except.ok host)
    (hps : env.newGossipSub env.ctx host = Except.ok ps)
    (hsub : env.subscribe ps env.pubsubTopic = Except.ok sub)
    (hpeers : env.bootstrapPeers env.ctx host conf.Host.Peers = none)
    (hmdns : env.newMdnsService env.ctx host (Second * 10) "" = Except.ok mdns)
    (hdht : env.dhtBootstrap
      (runBuild env env.ctx (env.libp2pNew env.ctx (lOpts conf t m s)) 0 none).dht env.ctx =
      none) :
    Start env (some conf) =
      ⟨[Event.withCancel env.ctx,
        Event.parseTransportOptions conf.Host.Transports,
        Event.parseMuxerOptions conf.Host.Muxers,
        Event.parseSecurityOptions conf.Host.Security,
        Event.libp2pNew env.ctx (lOpts conf t m s)] ++
       (runBuild env env.ctx (env.libp2pNew env.ctx (lOpts conf t m s)) 0 none).events ++
       [Event.newGossipSub env.ctx host,
        Event.subscribe ps env.pubsubTopic,
        Event.goPubsubHandler env.ctx sub] ++
       (env.hostAddrs host).map (Event.logInfof "Listening on %v") ++
       [Event.bootstrapPeers env.ctx host conf.Host.Peers,
        Event.newMdnsService env.ctx host (Second * 10) "",
        Event.registerNotifee mdns ⟨host, env.ctx⟩,
        Event.dhtBootstrap
          (runBuild env env.ctx (env.libp2pNew env.ctx (lOpts conf t m s)) 0 none).dht env.ctx,
        Event.goChatInputLoop env.ctx host ps,
        Event.signalNotify SIGINT,
        Event.selectWait] ++
       (match env.shutdown with
        | none => []
        | some Trigger.stop =>
          [Event.logInfo "Received stop signal from os. Shutting down...",
           Event.hostClose host, Event.cancel env.ctx]
        | some Trigger.donec =>
          [Event.logInfo "shutting down...", Event.hostClose host, Event.cancel env.ctx]),
       match env.shutdown with
       | none => Outcome.blocked
       | some _ => Outcome.returned none⟩ := by
  rcases hsd : env.shutdown with _ | _ | _ <;>
    simp [Start, shutdownWait, step, steps, done, block, deferred, ht, hm, hs, hhost, hps,
      hsub, hpeers, hmdns, hdht, hsd]

/-- Counterexample to C1: for a nil configuration `Start` does have an observable
effect before it returns, one call of the logger. -/
theorem Start_nil_config_logs :
    (Start (demoEnv 0 none) none).trace ≠ [] ∧
    (Start (demoEnv 0 none) none).trace.countP Event.isLog = 1 ∧
    Event.logError "nil config" ∈ (Start (demoEnv 0 none) none).trace := by
  decide

/-- C1, amended: for a nil configuration `Start` returns `config.ErrNilConfig`, and its
one effect is the error log line "nil config": every call it makes is a call of the
logger, so that no lifetime context is created and no parser, routing factory, host
builder, pubsub, bootstrap, discovery or signal-handling operation is invoked. -/
theorem Start_nil_config (env : Env) :
    (Start env none).outcome = Outcome.returned (some env.ErrNilConfig) ∧
    (Start env none).trace = [Event.logError "nil config"] ∧
    (Start env none).trace.countP Event.isLog = 1 ∧
    (∀ e ∈ (Start env none).trace, Event.isLog e = true) := by
  refine ⟨rfl, rfl, ?_, ?_⟩
  · simp [Start, step, done, Event.isLog]
  · simp [Start, step, done, Event.isLog]

/-- C2: when a parser fails, `Start` returns the error of the first failing parser (in
the order transports, muxers, security); the trace shows that no later parser and no
host builder call is made, only the log line and the deferred cancel. -/
theorem Start_parser_failure (env : Env) (conf : Config) :
    (∀ err, env.parseTransportOptions conf.Host.Transports = Except.error err →
      Start env (some conf) =
        ⟨[Event.withCancel env.ctx,
          Event.parseTransportOptions conf.Host.Transports,
          Event.logErrorf "err parsing transports\n%v" err,
          Event.cancel env.ctx], Outcome.returned (some err)⟩) ∧
    (∀ t err, env.parseTransportOptions conf.Host.Transports = Except.ok t →
      env.parseMuxerOptions conf.Host.Muxers = Except.error err →
      Start env (some conf) =
        ⟨[Event.withCancel env.ctx,
          Event.parseTransportOptions conf.Host.Transports,
          Event.parseMuxerOptions conf.Host.Muxers,
          Event.logErrorf "err parsing muxers\n%v" err,
          Event.cancel env.ctx], Outcome.returned (some err)⟩) ∧
    (∀ t m err, env.parseTransportOptions conf.Host.Transports = Except.ok t →
      env.parseMuxerOptions conf.Host.Muxers = Except.ok m →
      env.parseSecurityOptions conf.Host.Security = Except.error err →
      Start env (some conf) =
        ⟨[Event.withCancel env.ctx,
          Event.parseTransportOptions conf.Host.Transports,
          Event.parseMuxerOptions conf.Host.Muxers,
          Event.parseSecurityOptions conf.Host.Security,
          Event.logErrorf "err parsing security\n%v" err,
          Event.cancel env.ctx], Outcome.returned (some err)⟩) := by
  refine ⟨?_, ?_, ?_⟩
  · intro err h
    simp [Start, step, done, deferred, h]
  · intro t err h1 h2
    simp [Start, step, done, deferred, h1, h2]
  · intro t m err h1 h2 h3
    simp [Start, step, done, deferred, h1, h2, h3]

/-- Witness of C2: each of the three parsers failing in turn. -/
theorem Start_parser_failure_witness :
    Start (demoEnv 1 none) (some demoConf) =
      ⟨[Event.withCancel ⟨1⟩, Event.parseTransportOptions ["tcp"],
        Event.logErrorf "err parsing transports\n%v" ⟨1⟩, Event.cancel ⟨1⟩],
        Outcome.returned (some ⟨1⟩)⟩ ∧
    Start (demoEnv 2 none) (some demoConf) =
      ⟨[Event.withCancel ⟨1⟩, Event.parseTransportOptions ["tcp"],
        Event.parseMuxerOptions ["yamux"],
        Event.logErrorf "err parsing muxers\n%v" ⟨2⟩, Event.cancel ⟨1⟩],
        Outcome.returned (some ⟨2⟩)⟩ ∧
    Start (demoEnv 3 none) (some demoConf) =
      ⟨[Event.withCancel ⟨1⟩, Event.parseTransportOptions ["tcp"],
        Event.parseMuxerOptions ["yamux"], Event.parseSecurityOptions ["secio"],
        Event.logErrorf "err parsing security\n%v" ⟨3⟩, Event.cancel ⟨1⟩],
        Outcome.returned (some ⟨3⟩)⟩ :=
  ⟨(Start_parser_failure (demoEnv 1 none) demoConf).1 ⟨1⟩ rfl,
   (Start_parser_failure (demoEnv 2 none) demoConf).2.1 (LOpt.parsed 1) ⟨2⟩ rfl rfl,
   (Start_parser_failure (demoEnv 3 none) demoConf).2.2 (LOpt.parsed 1) (LOpt.parsed 2) ⟨3⟩
     rfl rfl rfl⟩

/-- C3: with the three parsers succeeding, when one of `libp2p.New`, `NewGossipSub`,
`Subscribe`, `bootstrapPeers`, `NewMdnsService`, `dht.Bootstrap` fails (those before it
having succeeded), `Start` returns exactly that error; the trace ends with the failing
call, its log line and the deferred cancel, so that no later step runs, the failing
call occurs once, and the shutdown wait is not reached. -/
theorem Start_construction_failure (env : Env) (conf : Config) (t m s : LOpt) (b : BuildRun)
    (ht : env.parseTransportOptions conf.Host.Transports = Except.ok t)
    (hm : env.parseMuxerOptions conf.Host.Muxers = Except.ok m)
    (hs : env.parseSecurityOptions conf.Host.Security = Except.ok s)
    (hb : runBuild env env.ctx (env.libp2pNew env.ctx (lOpts conf t m s)) 0 none = b) :
    (∀ err, b.result = Except.error err →
      Start env (some conf) =
        ⟨[Event.withCancel env.ctx,
          Event.parseTransportOptions conf.Host.Transports,
          Event.parseMuxerOptions conf.Host.Muxers,
          Event.parseSecurityOptions conf.Host.Security,
          Event.libp2pNew env.ctx (lOpts conf t m s)] ++ b.events ++
         [Event.logErrorf "err creating new libp2p host\n%v" err,
          Event.cancel env.ctx], Outcome.returned (some err)⟩) ∧
    (∀ host err, b.result = Except.ok host →
      env.newGossipSub env.ctx host = Except.error err →
      Start env (some conf) =
        ⟨[Event.withCancel env.ctx,
          Event.parseTransportOptions conf.Host.Transports,
          Event.parseMuxerOptions conf.Host.Muxers,
          Event.parseSecurityOptions conf.Host.Security,
          Event.libp2pNew env.ctx (lOpts conf t m s)] ++ b.events ++
         [Event.newGossipSub env.ctx host,
          Event.logErrorf "err creating new gossip sub\n%v" err,
          Event.cancel env.ctx], Outcome.returned (some err)⟩) ∧
    (∀ host ps err, b.result = Except.ok host →
      env.newGossipSub env.ctx host = Except.ok ps →
      env.subscribe ps env.pubsubTopic = Except.error err →
      Start env (some conf) =
        ⟨[Event.withCancel env.ctx,
          Event.parseTransportOptions conf.Host.Transports,
          Event.parseMuxerOptions conf.Host.Muxers,
          Event.parseSecurityOptions conf.Host.Security,
          Event.libp2pNew env.ctx (lOpts conf t m s)] ++ b.events ++
         [Event.newGossipSub env.ctx host,
          Event.subscribe ps env.pubsubTopic,
          Event.logErrorf "err subscribing\n%v" err,
          Event.cancel env.ctx], Outcome.returned (some err)⟩) ∧
    (∀ host ps sub err, b.result = Except.ok host →
      env.newGossipSub env.ctx host = Except.ok ps →
      env.subscribe ps env.pubsubTopic = Except.ok sub →
      env.bootstrapPeers env.ctx host conf.Host.Peers = some err →
      Start env (some conf) =
        ⟨[Event.withCancel env.ctx,
          Event.parseTransportOptions conf.Host.Transports,
          Event.parseMuxerOptions conf.Host.Muxers,
          Event.parseSecurityOptions conf.Host.Security,
          Event.libp2pNew env.ctx (lOpts conf t m s)] ++ b.events ++
         [Event.newGossipSub env.ctx host,
          Event.subscribe ps env.pubsubTopic,
          Event.goPubsubHandler env.ctx sub] ++
         (env.hostAddrs host).map (Event.logInfof "Listening on %v") ++
         [Event.bootstrapPeers env.ctx host conf.Host.Peers,
          Event.logErrorf "err bootstrapping peers\n%v" err,
          Event.cancel env.ctx], Outcome.returned (some err)⟩) ∧
    (∀ host ps sub err, b.result = Except.ok host →
      env.newGossipSub env.ctx host = Except.ok ps →
      env.subscribe ps env.pubsubTopic = Except.ok sub →
      env.bootstrapPeers env.ctx host conf.Host.Peers = none →
      env.newMdnsService env.ctx host (Second * 10) "" = Except.error err →
      Start env (some conf) =
        ⟨[Event.withCancel env.ctx,
          Event.parseTransportOptions conf.Host.Transports,
          Event.parseMuxerOptions conf.Host.Muxers,
          Event.parseSecurityOptions conf.Host.Security,
          Event.libp2pNew env.ctx (lOpts conf t m s)] ++ b.events ++
         [Event.newGossipSub env.ctx host,
          Event.subscribe ps env.pubsubTopic,
          Event.goPubsubHandler env.ctx sub] ++
         (env.hostAddrs host).map (Event.logInfof "Listening on %v") ++
         [Event.bootstrapPeers env.ctx host conf.Host.Peers,
          Event.newMdnsService env.ctx host (Second * 10) "",
          Event.logErrorf "err discovering\n%v" err,
          Event.cancel env.ctx], Outcome.returned (some err)⟩) ∧
    (∀ host ps sub mdns err, b.result = Except.ok host →
      env.newGossipSub env.ctx host = Except.ok ps →
      env.subscribe ps env.pubsubTopic = Except.ok sub →
      env.bootstrapPeers env.ctx host conf.Host.Peers = none →
      env.newMdnsService env.ctx host (Second * 10) "" = Except.ok mdns →
      env.dhtBootstrap b.dht env.ctx = some err →
      Start env (some conf) =
        ⟨[Event.withCancel env.ctx,
          Event.parseTransportOptions conf.Host.Transports,
          Event.parseMuxerOptions conf.Host.Muxers,
          Event.parseSecurityOptions conf.Host.Security,
          Event.libp2pNew env.ctx (lOpts conf t m s)] ++ b.events ++
         [Event.newGossipSub env.ctx host,
          Event.subscribe ps env.pubsubTopic,
          Event.goPubsubHandler env.ctx sub] ++
         (env.hostAddrs host).map (Event.logInfof "Listening on %v") ++
         [Event.bootstrapPeers env.ctx host conf.Host.Peers,
          Event.newMdnsService env.ctx host (Second * 10) "",
          Event.registerNotifee mdns ⟨host, env.ctx⟩,
          Event.dhtBootstrap b.dht env.ctx,
          Event.logErrorf "err bootstrapping\n%v" err,
          Event.cancel env.ctx], Outcome.returned (some err)⟩) := by
  subst hb
  refine ⟨?_, ?_, ?_, ?_, ?_, ?_⟩
  · intro err h1
    simp [Start, step, steps, done, deferred, ht, hm, hs, h1]
  · intro host err h1 h2
    simp [Start, step, steps, done, deferred, ht, hm, hs, h1, h2]
  · intro host ps err h1 h2 h3
    simp [Start, step, steps, done, deferred, ht, hm, hs, h1, h2, h3]
  · intro host ps sub err h1 h2 h3 h4
    simp [Start, step, steps, done, deferred, ht, hm, hs, h1, h2, h3, h4]
  · intro host ps sub err h1 h2 h3 h4 h5
    simp [Start, step, steps, done, deferred, ht, hm, hs, h1, h2, h3, h4, h5]
  · intro host ps sub mdns err h1 h2 h3 h4 h5 h6
    simp [Start, step, steps, done, deferred, ht, hm, hs, h1, h2, h3, h4, h5, h6]

/-- Witness of C3: each of the six construction steps failing in turn. -/
theorem Start_construction_failure_witness :
    Start (demoEnv 4 none) (some demoConf) =
      ⟨[Event.withCancel ⟨1⟩, Event.parseTransportOptions ["tcp"],
        Event.parseMuxerOptions ["yamux"], Event.parseSecurityOptions ["secio"],
        Event.libp2pNew ⟨1⟩ [LOpt.parsed 1, LOpt.parsed 2, LOpt.parsed 3,
          LOpt.ListenAddrStrings ["/ip4/0.0.0.0/tcp/3000"], LOpt.Routing, LOpt.DisableRelay],
        Event.kaddhtNew ⟨1⟩ ⟨7⟩,
        Event.logErrorf "err creating new libp2p host\n%v" ⟨4⟩, Event.cancel ⟨1⟩],
        Outcome.returned (some ⟨4⟩)⟩ ∧
    Start (demoEnv 5 none) (some demoConf) =
      ⟨[Event.withCancel ⟨1⟩, Event.parseTransportOptions ["tcp"],
        Event.parseMuxerOptions ["yamux"], Event.parseSecurityOptions ["secio"],
        Event.libp2pNew ⟨1⟩ [LOpt.parsed 1, LOpt.parsed 2, LOpt.parsed 3,
          LOpt.ListenAddrStrings ["/ip4/0.0.0.0/tcp/3000"], LOpt.Routing, LOpt.DisableRelay],
        Event.kaddhtNew ⟨1⟩ ⟨7⟩,
        Event.newGossipSub ⟨1⟩ ⟨7⟩,
        Event.logErrorf "err creating new gossip sub\n%v" ⟨5⟩, Event.cancel ⟨1⟩],
        Outcome.returned (some ⟨5⟩)⟩ ∧
    Start (demoEnv 6 none) (some demoConf) =
      ⟨[Event.withCancel ⟨1⟩, Event.parseTransportOptions ["tcp"],
        Event.parseMuxerOptions ["yamux"], Event.parseSecurityOptions ["secio"],
        Event.libp2pNew ⟨1⟩ [LOpt.parsed 1, LOpt.parsed 2, LOpt.parsed 3,
          LOpt.ListenAddrStrings ["/ip4/0.0.0.0/tcp/3000"], LOpt.Routing, LOpt.DisableRelay],
        Event.kaddhtNew ⟨1⟩ ⟨7⟩,
        Event.newGossipSub ⟨1⟩ ⟨7⟩, Event.subscribe ⟨11⟩ "pubsub-test",
        Event.logErrorf "err subscribing\n%v" ⟨6⟩, Event.cancel ⟨1⟩],
        Outcome.returned (some ⟨6⟩)⟩ ∧
    Start (demoEnv 7 none) (some demoConf) =
      ⟨[Event.withCancel ⟨1⟩, Event.parseTransportOptions ["tcp"],
        Event.parseMuxerOptions ["yamux"], Event.parseSecurityOptions ["secio"],
        Event.libp2pNew ⟨1⟩ [LOpt.parsed 1, LOpt.parsed 2, LOpt.parsed 3,
          LOpt.ListenAddrStrings ["/ip4/0.0.0.0/tcp/3000"], LOpt.Routing, LOpt.DisableRelay],
        Event.kaddhtNew ⟨1⟩ ⟨7⟩,
        Event.newGossipSub ⟨1⟩ ⟨7⟩, Event.subscribe ⟨11⟩ "pubsub-test",
        Event.goPubsubHandler ⟨1⟩ ⟨12⟩,
        Event.logInfof "Listening on %v" "/ip4/127.0.0.1/tcp/3000",
        Event.logInfof "Listening on %v" "/ip4/10.0.0.5/tcp/3000",
        Event.bootstrapPeers ⟨1⟩ ⟨7⟩ ["p1", "p2"],
        Event.logErrorf "err bootstrapping peers\n%v" ⟨7⟩, Event.cancel ⟨1⟩],
        Outcome.returned (some ⟨7⟩)⟩ ∧
    Start (demoEnv 8 none) (some demoConf) =
      ⟨[Event.withCancel ⟨1⟩, Event.parseTransportOptions ["tcp"],
        Event.parseMuxerOptions ["yamux"], Event.parseSecurityOptions ["secio"],
        Event.libp2pNew ⟨1⟩ [LOpt.parsed 1, LOpt.parsed 2, LOpt.parsed 3,
          LOpt.ListenAddrStrings ["/ip4/0.0.0.0/tcp/3000"], LOpt.Routing, LOpt.DisableRelay],
        Event.kaddhtNew ⟨1⟩ ⟨7⟩,
        Event.newGossipSub ⟨1⟩ ⟨7⟩, Event.subscribe ⟨11⟩ "pubsub-test",
        Event.goPubsubHandler ⟨1⟩ ⟨12⟩,
        Event.logInfof "Listening on %v" "/ip4/127.0.0.1/tcp/3000",
        Event.logInfof "Listening on %v" "/ip4/10.0.0.5/tcp/3000",
        Event.bootstrapPeers ⟨1⟩ ⟨7⟩ ["p1", "p2"],
        Event.newMdnsService ⟨1⟩ ⟨7⟩ 10000000000 "",
        Event.logErrorf "err discovering\n%v" ⟨8⟩, Event.cancel ⟨1⟩],
        Outcome.returned (some ⟨8⟩)⟩ ∧
    Start (demoEnv 9 none) (some demoConf) =
      ⟨[Event.withCancel ⟨1⟩, Event.parseTransportOptions ["tcp"],
        Event.parseMuxerOptions ["yamux"], Event.parseSecurityOptions ["secio"],
        Event.libp2pNew ⟨1⟩ [LOpt.parsed 1, LOpt.parsed 2, LOpt.parsed 3,
          LOpt.ListenAddrStrings ["/ip4/0.0.0.0/tcp/3000"], LOpt.Routing, LOpt.DisableRelay],
        Event.kaddhtNew ⟨1⟩ ⟨7⟩,
        Event.newGossipSub ⟨1⟩ ⟨7⟩, Event.subscribe ⟨11⟩ "pubsub-test",
        Event.goPubsubHandler ⟨1⟩ ⟨12⟩,
        Event.logInfof "Listening on %v" "/ip4/127.0.0.1/tcp/3000",
        Event.logInfof "Listening on %v" "/ip4/10.0.0.5/tcp/3000",
        Event.bootstrapPeers ⟨1⟩ ⟨7⟩ ["p1", "p2"],
        Event.newMdnsService ⟨1⟩ ⟨7⟩ 10000000000 "",
        Event.registerNotifee ⟨13⟩ ⟨⟨7⟩, ⟨1⟩⟩, Event.dhtBootstrap (some ⟨9⟩) ⟨1⟩,
        Event.logErrorf "err bootstrapping\n%v" ⟨9⟩, Event.cancel ⟨1⟩],
        Outcome.returned (some ⟨9⟩)⟩ :=
  ⟨(Start_construction_failure (demoEnv 4 none) demoConf (LOpt.parsed 1) (LOpt.parsed 2)
     (LOpt.parsed 3) _ rfl rfl rfl rfl).1 ⟨4⟩ rfl,
   (Start_construction_failure (demoEnv 5 none) demoConf (LOpt.parsed 1) (LOpt.parsed 2)
     (LOpt.parsed 3) _ rfl rfl rfl rfl).2.1 ⟨7⟩ ⟨5⟩ rfl rfl,
   (Start_construction_failure (demoEnv 6 none) demoConf (LOpt.parsed 1) (LOpt.parsed 2)
     (LOpt.parsed 3) _ rfl rfl rfl rfl).2.2.1 ⟨7⟩ ⟨11⟩ ⟨6⟩ rfl rfl rfl,
   (Start_construction_failure (demoEnv 7 none) demoConf (LOpt.parsed 1) (LOpt.parsed 2)
     (LOpt.parsed 3) _ rfl rfl rfl rfl).2.2.2.1 ⟨7⟩ ⟨11⟩ ⟨12⟩ ⟨7⟩ rfl rfl rfl rfl,
   (Start_construction_failure (demoEnv 8 none) demoConf (LOpt.parsed 1) (LOpt.parsed 2)
     (LOpt.parsed 3) _ rfl rfl rfl rfl).2.2.2.2.1 ⟨7⟩ ⟨11⟩ ⟨12⟩ ⟨8⟩ rfl rfl rfl rfl rfl,
   (Start_construction_failure (demoEnv 9 none) demoConf (LOpt.parsed 1) (LOpt.parsed 2)
     (LOpt.parsed 3) _ rfl rfl rfl rfl).2.2.2.2.2 ⟨7⟩ ⟨11⟩ ⟨12⟩ ⟨13⟩ ⟨9⟩ rfl rfl rfl rfl rfl rfl⟩

/-- C4: when every construction step succeeds, the trace of `Start` is the context
creation followed by exactly, in this order: the three parsers, `libp2p.New` (within
which the factory runs), `NewGossipSub`, `Subscribe`, the launch of the pubsub handler,
one log line per listen address, `bootstrapPeers`, `NewMdnsService`, `RegisterNotifee`,
`dht.Bootstrap`, the launch of the chat input loop, `signal.Notify`, and the wait;
what follows the wait is only the shutdown (nothing while no trigger fires). The events
within `libp2p.New` are `kaddht.New` calls and their error log lines only. -/
theorem Start_success_sequence (env : Env) (conf : Config) (t m s : LOpt) (b : BuildRun)
    (host : Host) (ps : PubSub) (sub : Subscription) (mdns : MdnsService)
    (ht : env.parseTransportOptions conf.Host.Transports = Except.ok t)
    (hm : env.parseMuxerOptions conf.Host.Muxers = Except.ok m)
    (hs : env.parseSecurityOptions conf.Host.Security = Except.ok s)
    (hb : runBuild env env.ctx (env.libp2pNew env.ctx (lOpts conf t m s)) 0 none = b)
    (hhost : b.result = Except.ok host)
    (hps : env.newGossipSub env.ctx host = Except.ok ps)
    (hsub : env.subscribe ps env.pubsubTopic = Except.ok sub)
    (hpeers : env.bootstrapPeers env.ctx host conf.Host.Peers = none)
    (hmdns : env.newMdnsService env.ctx host (Second * 10) "" = Except.ok mdns)
    (hdht : env.dhtBootstrap b.dht env.ctx = none) :
    Start env (some conf) =
      ⟨[Event.withCancel env.ctx,
        Event.parseTransportOptions conf.Host.Transports,
        Event.parseMuxerOptions conf.Host.Muxers,
        Event.parseSecurityOptions conf.Host.Security,
        Event.libp2pNew env.ctx (lOpts conf t m s)] ++ b.events ++
       [Event.newGossipSub env.ctx host,
        Event.subscribe ps env.pubsubTopic,
        Event.goPubsubHandler env.ctx sub] ++
       (env.hostAddrs host).map (Event.logInfof "Listening on %v") ++
       [Event.bootstrapPeers env.ctx host conf.Host.Peers,
        Event.newMdnsService env.ctx host (Second * 10) "",
        Event.registerNotifee mdns ⟨host, env.ctx⟩,
        Event.dhtBootstrap b.dht env.ctx,
        Event.goChatInputLoop env.ctx host ps,
        Event.signalNotify SIGINT,
        Event.selectWait] ++
       (match env.shutdown with
        | none => []
        | some Trigger.stop =>
          [Event.logInfo "Received stop signal from os. Shutting down...",
           Event.hostClose host, Event.cancel env.ctx]
        | some Trigger.donec =>
          [Event.logInfo "shutting down...", Event.hostClose host, Event.cancel env.ctx]),
       match env.shutdown with
       | none => Outcome.blocked
       | some _ => Outcome.returned none⟩ ∧
    (∀ e ∈ b.events, (∃ h, e = Event.kaddhtNew env.ctx h) ∨
      (∃ err, e = Event.logErrorf "err creating new kaddht\n%v" err)) := by
  subst hb
  exact ⟨Start_ok_run env conf t m s host ps sub mdns ht hm hs hhost hps hsub hpeers hmdns hdht,
    runBuild_events env env.ctx _ 0 none⟩

/-- Witness of C4: all collaborators succeed and the interrupt arrives. -/
theorem Start_success_sequence_witness :
    Start (demoEnv 0 (some Trigger.stop)) (some demoConf) =
      ⟨[Event.withCancel ⟨1⟩, Event.parseTransportOptions ["tcp"],
        Event.parseMuxerOptions ["yamux"], Event.parseSecurityOptions ["secio"],
        Event.libp2pNew ⟨1⟩ [LOpt.parsed 1, LOpt.parsed 2, LOpt.parsed 3,
          LOpt.ListenAddrStrings ["/ip4/0.0.0.0/tcp/3000"], LOpt.Routing, LOpt.DisableRelay],
        Event.kaddhtNew ⟨1⟩ ⟨7⟩,
        Event.newGossipSub ⟨1⟩ ⟨7⟩, Event.subscribe ⟨11⟩ "pubsub-test",
        Event.goPubsubHandler ⟨1⟩ ⟨12⟩,
        Event.logInfof "Listening on %v" "/ip4/127.0.0.1/tcp/3000",
        Event.logInfof "Listening on %v" "/ip4/10.0.0.5/tcp/3000",
        Event.bootstrapPeers ⟨1⟩ ⟨7⟩ ["p1", "p2"],
        Event.newMdnsService ⟨1⟩ ⟨7⟩ 10000000000 "",
        Event.registerNotifee ⟨13⟩ ⟨⟨7⟩, ⟨1⟩⟩, Event.dhtBootstrap (some ⟨9⟩) ⟨1⟩,
        Event.goChatInputLoop ⟨1⟩ ⟨7⟩ ⟨11⟩, Event.signalNotify 2, Event.selectWait,
        Event.logInfo "Received stop signal from os. Shutting down...",
        Event.hostClose ⟨7⟩, Event.cancel ⟨1⟩],
        Outcome.returned none⟩ :=
  (Start_success_sequence (demoEnv 0 (some Trigger.stop)) demoConf (LOpt.parsed 1)
    (LOpt.parsed 2) (LOpt.parsed 3) _ ⟨7⟩ ⟨11⟩ ⟨12⟩ ⟨13⟩ rfl rfl rfl rfl rfl rfl rfl rfl rfl rfl).1

/-- C9: with the three parsers succeeding, each parser is called on the configured
identifier list, and `libp2p.New` is called, once, on the list made of the transport,
muxer and security options, the listen-address option (all listen addresses, in order)
exactly when the listen list is non-empty, the routing option, and the relay-disable
option exactly when `DisableRelay` is set; its length is 4, plus one for a non-empty
listen list, plus one for `DisableRelay`. -/
theorem Start_capability_list (env : Env) (conf : Config) (t m s : LOpt)
    (ht : env.parseTransportOptions conf.Host.Transports = Except.ok t)
    (hm : env.parseMuxerOptions conf.Host.Muxers = Except.ok m)
    (hs : env.parseSecurityOptions conf.Host.Security = Except.ok s) :
    (∃ rest, (Start env (some conf)).trace =
        [Event.withCancel env.ctx,
         Event.parseTransportOptions conf.Host.Transports,
         Event.parseMuxerOptions conf.Host.Muxers,
         Event.parseSecurityOptions conf.Host.Security,
         Event.libp2pNew env.ctx
           ([t, m, s] ++
            (if conf.Host.Listens ≠ [] then [LOpt.ListenAddrStrings conf.Host.Listens] else []) ++
            [LOpt.Routing] ++
            (if conf.Host.DisableRelay = true then [LOpt.DisableRelay] else []))] ++ rest ∧
      ∀ c o, Event.libp2pNew c o ∉ rest) ∧
    (lOpts conf t m s).length =
      4 + (if conf.Host.Listens ≠ [] then 1 else 0) +
        (if conf.Host.DisableRelay = true then 1 else 0) := by
  have hl : lOpts conf t m s = [t, m, s] ++
      (if conf.Host.Listens ≠ [] then [LOpt.ListenAddrStrings conf.Host.Listens] else []) ++
      [LOpt.Routing] ++
      (if conf.Host.DisableRelay = true then [LOpt.DisableRelay] else []) := by
    unfold lOpts
    cases hL : conf.Host.Listens <;> cases hD : conf.Host.DisableRelay <;> simp
  refine ⟨?_, ?_⟩
  · rw [← hl]
    have hbe := runBuild_events env env.ctx (env.libp2pNew env.ctx (lOpts conf t m s)) 0 none
    simp only [Start, ht, hm, hs, deferred_step, deferred_steps, step_trace, steps_trace]
    refine ⟨_, rfl, ?_⟩
    intro c o hmem
    rcases List.mem_append.mp hmem with hmem | hmem
    · rcases hbe _ hmem with ⟨h, he⟩ | ⟨err, he⟩ <;> cases he
    · revert hmem
      simp only [shutdownWait]
      repeat' split
      all_goals simp [step, steps, done, block, deferred]
  · rw [hl]
    cases hL : conf.Host.Listens <;> cases hD : conf.Host.DisableRelay <;> simp

/-- C5: in every run of `Start`, `dht.Bootstrap` is called at most once; when it is
called, `libp2p.New` has been called before it, has made all its factory invocations
and has returned a host without error; and when that build invoked the factory exactly
once, with success, the receiver of `dht.Bootstrap` is the routing table that
`kaddht.New` returned to that invocation. -/
theorem Start_dht_bootstrap_once (env : Env) (conf : Option Config) :
    (Start env conf).trace.countP Event.isDhtBootstrap ≤ 1 ∧
    (∀ d c, Event.dhtBootstrap d c ∈ (Start env conf).trace →
      ∃ cf opts host p0 p1 post, conf = some cf ∧
        (runBuild env env.ctx (env.libp2pNew env.ctx opts) 0 none).result = Except.ok host ∧
        (Start env conf).trace =
          p0 ++ [Event.libp2pNew env.ctx opts] ++
          (runBuild env env.ctx (env.libp2pNew env.ctx opts) 0 none).events ++ p1 ++
          [Event.dhtBootstrap d c] ++ post) ∧
    (∀ cf t m s h d0, conf = some cf →
      env.parseTransportOptions cf.Host.Transports = Except.ok t →
      env.parseMuxerOptions cf.Host.Muxers = Except.ok m →
      env.parseSecurityOptions cf.Host.Security = Except.ok s →
      (runBuild env env.ctx (env.libp2pNew env.ctx (lOpts cf t m s)) 0 none).calls =
        [(h, Except.ok d0)] →
      env.kaddhtNew 0 env.ctx h = Except.ok d0 ∧
      ∀ d c, Event.dhtBootstrap d c ∈ (Start env conf).trace → d = some d0) := by
  refine ⟨?_, ?_, ?_⟩
  · cases conf with
    | none => simp [Start, step, done, Event.isDhtBootstrap]
    | some cf =>
      simp only [Start, shutdownWait]
      repeat' split
      all_goals simp [step, steps, done, block, deferred, List.countP_cons, Event.isDhtBootstrap]
  · intro d c hmem
    cases conf with
    | none => simp [Start, step, done] at hmem
    | some cf =>
      obtain ⟨t, m, s, host, ps, sub, mdns, ht, hm, hs, hhost, hps, hsub, hpeers, hmdns, rfl,
        rfl⟩ := dhtBootstrap_mem_Start env cf d c hmem
      obtain ⟨post, hpost⟩ :=
        Start_trace_to_dhtBootstrap env cf t m s host ps sub mdns ht hm hs hhost hps hsub hpeers
          hmdns
      exact ⟨cf, _, host, _, _, post, rfl, hhost, hpost⟩
  · intro cf t m s h d0 hconf ht hm hs hcalls
    subst hconf
    obtain ⟨hd, hk⟩ := runBuild_calls_single env env.ctx _ 0 none h d0 hcalls
    refine ⟨hk, ?_⟩
    intro d c hmem
    obtain ⟨t', m', s', host, ps, sub, mdns, ht', hm', hs', _, _, _, _, _, hd', _⟩ :=
      dhtBootstrap_mem_Start env cf d c hmem
    rw [ht] at ht'
    rw [hm] at hm'
    rw [hs] at hs'
    cases ht'
    cases hm'
    cases hs'
    rw [hd', hd]

/-- C6: in a run of `Start` that reaches the final `select`, whichever of the two
channels fires first, `Start` returns nil, the `select` is executed once, `Host.Close`
is called exactly once, on the host that `libp2p.New` returned, and what follows the
`select` is only the log line of the branch taken, `Host.Close` and the deferred
cancel: the other channel is not waited for. -/
theorem Start_shutdown (env : Env) (conf : Option Config) (trig : Trigger)
    (hreach : Event.selectWait ∈ (Start env conf).trace)
    (htrig : env.shutdown = some trig) :
    (Start env conf).outcome = Outcome.returned none ∧
    (Start env conf).trace.countP Event.isSelectWait = 1 ∧
    (Start env conf).trace.countP Event.isHostClose = 1 ∧
    ∃ cf t m s host pre, conf = some cf ∧
      (runBuild env env.ctx (env.libp2pNew env.ctx (lOpts cf t m s)) 0 none).result =
        Except.ok host ∧
      (Start env conf).trace = pre ++
        [Event.selectWait,
         Event.logInfo (match trig with
           | Trigger.stop => "Received stop signal from os. Shutting down..."
           | Trigger.donec => "shutting down..."),
         Event.hostClose host,
         Event.cancel env.ctx] := by
  cases conf with
  | none => simp [Start, step, done] at hreach
  | some cf =>
    obtain ⟨t, m, s, host, ps, sub, mdns, ht, hm, hs, hhost, hps, hsub, hpeers, hmdns, hdht⟩ :=
      selectWait_mem_Start env cf hreach
    have hrun := Start_ok_run env cf t m s host ps sub mdns ht hm hs hhost hps hsub hpeers
      hmdns hdht
    rw [hrun]
    refine ⟨by simp [htrig], ?_, ?_, cf, t, m, s, host, ?_⟩
    · cases trig <;> simp [htrig, List.countP_cons, Event.isSelectWait]
    · cases trig <;> simp [htrig, List.countP_cons, Event.isHostClose]
    · refine ⟨[Event.withCancel env.ctx,
          Event.parseTransportOptions cf.Host.Transports,
          Event.parseMuxerOptions cf.Host.Muxers,
          Event.parseSecurityOptions cf.Host.Security,
          Event.libp2pNew env.ctx (lOpts cf t m s)] ++
         (runBuild env env.ctx (env.libp2pNew env.ctx (lOpts cf t m s)) 0 none).events ++
         [Event.newGossipSub env.ctx host,
          Event.subscribe ps env.pubsubTopic,
          Event.goPubsubHandler env.ctx sub] ++
         (env.hostAddrs host).map (Event.logInfof "Listening on %v") ++
         [Event.bootstrapPeers env.ctx host cf.Host.Peers,
          Event.newMdnsService env.ctx host (Second * 10) "",
          Event.registerNotifee mdns ⟨host, env.ctx⟩,
          Event.dhtBootstrap
            (runBuild env env.ctx (env.libp2pNew env.ctx (lOpts cf t m s)) 0 none).dht env.ctx,
          Event.goChatInputLoop env.ctx host ps,
          Event.signalNotify SIGINT], rfl, hhost, ?_⟩
      cases trig <;> simp [htrig]

/-- Witness of C6: the interrupt fires while the input loop is active, and the input
loop ends with no interrupt. -/
theorem Start_shutdown_witness :
    ((Start (demoEnv 0 (some Trigger.stop)) (some demoConf)).outcome = Outcome.returned none ∧
     (Start (demoEnv 0 (some Trigger.stop)) (some demoConf)).trace.countP Event.isHostClose
       = 1) ∧
    ((Start (demoEnv 0 (some Trigger.donec)) (some demoConf)).outcome = Outcome.returned none ∧
     (Start (demoEnv 0 (some Trigger.donec)) (some demoConf)).trace.countP Event.isHostClose
       = 1) :=
  ⟨⟨(Start_shutdown (demoEnv 0 (some Trigger.stop)) (some demoConf) Trigger.stop
      (by decide) rfl).1,
    (Start_shutdown (demoEnv 0 (some Trigger.stop)) (some demoConf) Trigger.stop
      (by decide) rfl).2.2.1⟩,
   ⟨(Start_shutdown (demoEnv 0 (some Trigger.donec)) (some demoConf) Trigger.donec
      (by decide) rfl).1,
    (Start_shutdown (demoEnv 0 (some Trigger.donec)) (some demoConf) Trigger.donec
      (by decide) rfl).2.2.1⟩⟩

/-- Witness of C5: the build of the concrete collaborators invokes the factory once, and
`dht.Bootstrap` is called on the routing table 9 that `kaddht.New` returned. -/
theorem Start_dht_bootstrap_once_witness :
    Event.dhtBootstrap (some ⟨9⟩) ⟨1⟩ ∈
      (Start (demoEnv 0 (some Trigger.stop)) (some demoConf)).trace ∧
    (demoEnv 0 (some Trigger.stop)).kaddhtNew 0 ⟨1⟩ ⟨7⟩ = Except.ok ⟨9⟩ ∧
    ∀ d c, Event.dhtBootstrap d c ∈
      (Start (demoEnv 0 (some Trigger.stop)) (some demoConf)).trace → d = some ⟨9⟩ :=
  ⟨by decide,
   (Start_dht_bootstrap_once (demoEnv 0 (some Trigger.stop)) (some demoConf)).2.2 demoConf
     (LOpt.parsed 1) (LOpt.parsed 2) (LOpt.parsed 3) ⟨7⟩ ⟨9⟩ rfl rfl rfl rfl rfl⟩

/-- Witness of C9: a configuration with a listen address and relay disabled gives six
options, one with no listen address and relay enabled gives four. -/
theorem Start_capability_list_witness :
    (lOpts demoConf (LOpt.parsed 1) (LOpt.parsed 2) (LOpt.parsed 3)).length = 6 ∧
    (lOpts demoConfBare (LOpt.parsed 1) (LOpt.parsed 2) (LOpt.parsed 3)).length = 4 ∧
    ∃ rest, (Start (demoEnv 0 none) (some demoConfBare)).trace =
      [Event.withCancel ⟨1⟩,
       Event.parseTransportOptions ["tcp", "ws"],
       Event.parseMuxerOptions ["mplex"],
       Event.parseSecurityOptions ["tls"],
       Event.libp2pNew ⟨1⟩ [LOpt.parsed 1, LOpt.parsed 2, LOpt.parsed 3, LOpt.Routing]] ++ rest ∧
      ∀ c o, Event.libp2pNew c o ∉ rest :=
  ⟨(Start_capability_list (demoEnv 0 none) demoConf (LOpt.parsed 1) (LOpt.parsed 2)
      (LOpt.parsed 3) rfl rfl rfl).2,
   (Start_capability_list (demoEnv 0 none) demoConfBare (LOpt.parsed 1) (LOpt.parsed 2)
      (LOpt.parsed 3) rfl rfl rfl).2,
   (Start_capability_list (demoEnv 0 none) demoConfBare (LOpt.parsed 1) (LOpt.parsed 2)
      (LOpt.parsed 3) rfl rfl rfl).1⟩

/-- C7: a sequence of announcements delivered to the notifee produces exactly one
`Host.Connect` call per announcement, in announcement order, each with the context and
host of the notifee and the announced address info as given; nothing else happens, and
every call of `HandlePeerFound` returns, whatever `Connect` answers. -/
theorem announce_connects (env : Env) (m : mdnsNotifee) (n : Nat) (pis : List AddrInfo) :
    announce env m n pis =
      ⟨pis.map (fun pi => Event.hostConnect m.ctx m.h pi), Outcome.returned ()⟩ ∧
    (announce env m n pis).trace.length = pis.length ∧
    (∀ pi, mdnsNotifee.HandlePeerFound env n m pi =
      ⟨[Event.hostConnect m.ctx m.h pi], Outcome.returned ()⟩) := by
  have h : ∀ (l : List AddrInfo) (k : Nat), announce env m k l =
      ⟨l.map (fun pi => Event.hostConnect m.ctx m.h pi), Outcome.returned ()⟩ := by
    intro l
    induction l with
    | nil => intro k; rfl
    | cons pi rest ih =>
      intro k
      simp [announce, mdnsNotifee.HandlePeerFound, step, steps, done, ih (k + 1)]
  refine ⟨h pis n, ?_, fun _ => rfl⟩
  rw [h pis n]
  simp

/-- Counterexample to C8: `Host.Connect` returns an error to the notifee, and the run
of `HandlePeerFound` contains no call of the logger. -/
theorem HandlePeerFound_error_not_logged :
    (demoEnv 10 none).hostConnect 0 demoNotifee.ctx demoNotifee.h demoPeer = some ⟨10⟩ ∧
    ∀ e ∈ (mdnsNotifee.HandlePeerFound (demoEnv 10 none) 0 demoNotifee demoPeer).trace,
      Event.isLog e = false := by
  decide

/-- C8, amended: when `Host.Connect` returns an error to the notifee, the error is
dropped: `HandlePeerFound` makes that one `Connect` call and no other call (no log line,
no second attempt), and returns to its caller, to which it hands no error. -/
theorem HandlePeerFound_error_dropped (env : Env) (n : Nat) (m : mdnsNotifee) (pi : AddrInfo)
    (err : Err) (_herr : env.hostConnect n m.ctx m.h pi = some err) :
    mdnsNotifee.HandlePeerFound env n m pi =
      ⟨[Event.hostConnect m.ctx m.h pi], Outcome.returned ()⟩ ∧
    (mdnsNotifee.HandlePeerFound env n m pi).trace.countP Event.isHostConnect = 1 ∧
    (mdnsNotifee.HandlePeerFound env n m pi).trace.countP Event.isLog = 0 := by
  refine ⟨rfl, ?_, ?_⟩ <;>
    simp [mdnsNotifee.HandlePeerFound, step, done, Event.isHostConnect, Event.isLog]

/-- Witness of C8, amended: the concrete `Connect` failure. -/
theorem HandlePeerFound_error_dropped_witness :
    mdnsNotifee.HandlePeerFound (demoEnv 10 none) 0 demoNotifee demoPeer =
      ⟨[Event.hostConnect ⟨1⟩ ⟨7⟩ demoPeer], Outcome.returned ()⟩ :=
  (HandlePeerFound_error_dropped (demoEnv 10 none) 0 demoNotifee demoPeer ⟨10⟩ rfl).1

/-- C10: when `libp2p.New` has returned a host and a later construction step
(`NewGossipSub`, `Subscribe`, `bootstrapPeers`, `NewMdnsService` or `dht.Bootstrap`)
fails with `err`, `Start` returns `err`, never calls `Host.Close`, and calls the deferred
cancel once, as its last action; and in every run of `Start` that creates the lifetime
context and returns, the cancel is called exactly once, as the last action. -/
theorem Start_error_keeps_host_open (env : Env) (conf : Config) (t m s : LOpt) (host : Host)
    (err : Err)
    (ht : env.parseTransportOptions conf.Host.Transports = Except.ok t)
    (hm : env.parseMuxerOptions conf.Host.Muxers = Except.ok m)
    (hs : env.parseSecurityOptions conf.Host.Security = Except.ok s)
    (hhost : (runBuild env env.ctx (env.libp2pNew env.ctx (lOpts conf t m s)) 0 none).result =
      Except.ok host)
    (hfail :
      env.newGossipSub env.ctx host = Except.error err ∨
      (∃ ps, env.newGossipSub env.ctx host = Except.ok ps ∧
        env.subscribe ps env.pubsubTopic = Except.error err) ∨
      (∃ ps sub, env.newGossipSub env.ctx host = Except.ok ps ∧
        env.subscribe ps env.pubsubTopic = Except.ok sub ∧
        env.bootstrapPeers env.ctx host conf.Host.Peers = some err) ∨
      (∃ ps sub, env.newGossipSub env.ctx host = Except.ok ps ∧
        env.subscribe ps env.pubsubTopic = Except.ok sub ∧
        env.bootstrapPeers env.ctx host conf.Host.Peers = none ∧
        env.newMdnsService env.ctx host (Second * 10) "" = Except.error err) ∨
      (∃ ps sub mdns, env.newGossipSub env.ctx host = Except.ok ps ∧
        env.subscribe ps env.pubsubTopic = Except.ok sub ∧
        env.bootstrapPeers env.ctx host conf.Host.Peers = none ∧
        env.newMdnsService env.ctx host (Second * 10) "" = Except.ok mdns ∧
        env.dhtBootstrap
          (runBuild env env.ctx (env.libp2pNew env.ctx (lOpts conf t m s)) 0 none).dht
          env.ctx = some err)) :
    ((Start env (some conf)).outcome = Outcome.returned (some err) ∧
     (Start env (some conf)).trace.countP Event.isHostClose = 0 ∧
     (Start env (some conf)).trace.countP Event.isCancel = 1 ∧
     (Start env (some conf)).trace.getLast? = some (Event.cancel env.ctx)) ∧
    (∀ (conf' : Option Config) (v : Option Err) (c : Ctx),
      Event.withCancel c ∈ (Start env conf').trace →
      (Start env conf').outcome = Outcome.returned v →
      (Start env conf').trace.countP Event.isCancel = 1 ∧
      (Start env conf').trace.getLast? = some (Event.cancel c)) := by
  constructor
  · rcases hfail with h1 | ⟨ps, h1, h2⟩ | ⟨ps, sub, h1, h2, h3⟩ | ⟨ps, sub, h1, h2, h3, h4⟩ |
      ⟨ps, sub, mdns, h1, h2, h3, h4, h5⟩
    · simp [Start, step, steps, done, deferred, ht, hm, hs, hhost, h1, List.countP_cons,
        Event.isHostClose, Event.isCancel, List.getLast?_cons]
    · simp [Start, step, steps, done, deferred, ht, hm, hs, hhost, h1, h2, List.countP_cons,
        Event.isHostClose, Event.isCancel, List.getLast?_cons]
    · simp [Start, step, steps, done, deferred, ht, hm, hs, hhost, h1, h2, h3,
        List.countP_cons, Event.isHostClose, Event.isCancel, List.getLast?_cons]
    · simp [Start, step, steps, done, deferred, ht, hm, hs, hhost, h1, h2, h3, h4,
        List.countP_cons, Event.isHostClose, Event.isCancel, List.getLast?_cons]
    · simp [Start, step, steps, done, deferred, ht, hm, hs, hhost, h1, h2, h3, h4, h5,
        List.countP_cons, Event.isHostClose, Event.isCancel, List.getLast?_cons]
  · clear hfail hhost ht hm hs
    intro conf' v c hc hv
    cases conf' with
    | none => simp [Start, step, done] at hc
    | some cf =>
      revert hc hv
      simp only [Start, shutdownWait]
      repeat' split
      all_goals intro hc hv
      all_goals simp [step, steps, done, block, deferred] at hc hv
      all_goals simp [step, steps, done, block, deferred, List.countP_cons, Event.isCancel, List.getLast?_cons, hc]

/-- Witness of C10: `dht.Bootstrap` fails after the host has been built. -/
theorem Start_error_keeps_host_open_witness :
    (Start (demoEnv 9 none) (some demoConf)).outcome = Outcome.returned (some ⟨9⟩) ∧
    (Start (demoEnv 9 none) (some demoConf)).trace.countP Event.isHostClose = 0 ∧
    (Start (demoEnv 9 none) (some demoConf)).trace.countP Event.isCancel = 1 ∧
    (Start (demoEnv 9 none) (some demoConf)).trace.getLast? = some (Event.cancel ⟨1⟩) :=
  (Start_error_keeps_host_open (demoEnv 9 none) demoConf (LOpt.parsed 1) (LOpt.parsed 2)
    (LOpt.parsed 3) ⟨7⟩ ⟨9⟩ rfl rfl rfl rfl
    (Or.inr (Or.inr (Or.inr (Or.inr ⟨⟨11⟩, ⟨12⟩, ⟨13⟩, rfl, rfl, rfl, rfl, rfl⟩))))).1

end GossipHost
